import Mathlib

/-!
Shallow embedding of `src/order-taking/src/lib.rs` (functional-ddd-rust-non-async).

Rust `Result<T, anyhow::Error>` is modelled as `Except String T`: an `anyhow!`
error is, observably, its message string.  Rust `String` is Lean `String`;
Rust `String::len` (UTF-8 byte length) is `String.utf8ByteSize`; Rust `i64`
is `Int` (the code performs no arithmetic on quantities, only wrapping, so no
overflow is involved).  The `?` operator is modelled by an explicit `match`
that returns the error unchanged, which is exactly its Rust semantics.
-/

deriving instance DecidableEq for Except

namespace OrderTaking

/-- Rust regex `.+@.+` (`EMAIL_RE`) under `Regex::is_match`: the string
contains, somewhere, a non-newline character, immediately followed by `@`,
immediately followed by a non-newline character (`.` in the `regex` crate
matches any character except `\n`; `is_match` searches for any substring
match, and the minimal match of `.+@.+` is a three-character window). -/
def emailReMatches : List Char → Bool
  | a :: b :: c :: rest =>
      (a != '\n' && b == '@' && c != '\n') || emailReMatches (b :: c :: rest)
  | _ => false

/-- `simple_types::String50` (newtype over `String`). -/
structure String50 where
  val : String
deriving DecidableEq, Repr

/-- `String50::create`: length (in bytes, Rust `String::len`) over 50 is
rejected with the `anyhow!("String to big")` error. -/
def String50.create (string50 : String) : Except String String50 :=
  if string50.utf8ByteSize > 50 then
    Except.error "String to big"
  else
    Except.ok (String50.mk string50)

/-- `simple_types::EmailAddress` (newtype over `String`). -/
structure EmailAddress where
  val : String
deriving DecidableEq, Repr

/-- `EmailAddress::create`: errors when `EMAIL_RE.is_match(&email)` holds,
and wraps the string otherwise (this is the source's condition verbatim:
it rejects on regex match). -/
def EmailAddress.create (email : String) : Except String EmailAddress :=
  if emailReMatches email.data then
    Except.error "Must have @ separator"
  else
    Except.ok (EmailAddress.mk email)

/-- `public_types::UnvalidatedCustomerInfo`. -/
structure UnvalidatedCustomerInfo where
  first_name : String
  last_name : String
  email_address : String
deriving DecidableEq, Repr

/-- `public_types::ValidatedCustomerInfo`. -/
structure ValidatedCustomerInfo where
  first_name : String50
  last_name : String50
  email_address : EmailAddress
deriving DecidableEq, Repr

/-- `ValidatedCustomerInfo::new`. -/
def ValidatedCustomerInfo.new (first_name : String50) (last_name : String50)
    (email_address : EmailAddress) : ValidatedCustomerInfo :=
  ValidatedCustomerInfo.mk first_name last_name email_address

/-- `public_types::UnvalidatedOrderLine`. -/
structure UnvalidatedOrderLine where
  order_line_id : String
  product_code : String
  quantity : Int
deriving DecidableEq, Repr

/-- `public_types::UnvalidatedOrder`. -/
structure UnvalidatedOrder where
  order_id : String
  lines : List UnvalidatedOrderLine
deriving DecidableEq, Repr

/-- `public_types::Address` (empty struct). -/
structure Address
deriving DecidableEq, Repr

/-- `public_types::OrderPlaced` (empty struct). -/
structure OrderPlaced
deriving DecidableEq, Repr

/-- `public_types::BillableOrderPlaced` (empty struct). -/
structure BillableOrderPlaced
deriving DecidableEq, Repr

/-- `public_types::OrderAcknowledgmentSent` (empty struct). -/
structure OrderAcknowledgmentSent
deriving DecidableEq, Repr

/-- `public_types::ProductCode` (newtype over `String`). -/
structure ProductCode where
  val : String
deriving DecidableEq, Repr

/-- `ProductCode::new`: infallible, wraps the raw code. -/
def ProductCode.new (code : String) : ProductCode :=
  ProductCode.mk code

/-- `public_types::PlaceOrderEvent`. -/
inductive PlaceOrderEvent where
  | OrderPlaced : OrderPlaced → PlaceOrderEvent
  | BillableOrderPlaced : BillableOrderPlaced → PlaceOrderEvent
  | OrderAcknowledgmentSent : OrderAcknowledgmentSent → PlaceOrderEvent
deriving DecidableEq, Repr

/-- `public_types::OrderId` (newtype over `String`). -/
structure OrderId where
  val : String
deriving DecidableEq, Repr

/-- `OrderId::new`: infallible, wraps the raw id unchanged. -/
def OrderId.new (id : String) : OrderId :=
  OrderId.mk id

/-- `public_types::OrderLineId` (newtype over `String`). -/
structure OrderLineId where
  val : String
deriving DecidableEq, Repr

/-- `OrderLineId::new`: infallible, wraps the raw id unchanged. -/
def OrderLineId.new (id : String) : OrderLineId :=
  OrderLineId.mk id

/-- `public_types::OrderQuantity` (newtype over `i64`). -/
structure OrderQuantity where
  val : Int
deriving DecidableEq, Repr

/-- `OrderQuantity::new`: infallible, wraps the raw quantity unchanged
(the source performs no positivity check). -/
def OrderQuantity.new (quantity : Int) : OrderQuantity :=
  OrderQuantity.mk quantity

/-- `implementation::ValidatedOrderLine`. -/
structure ValidatedOrderLine where
  order_line_id : OrderLineId
  product_code : ProductCode
  quantity : OrderQuantity
deriving DecidableEq, Repr

/-- `ValidatedOrderLine::new`. -/
def ValidatedOrderLine.new (order_line_id : OrderLineId) (product_code : ProductCode)
    (quantity : OrderQuantity) : ValidatedOrderLine :=
  ValidatedOrderLine.mk order_line_id product_code quantity

/-- `implementation::ValidatedOrder`. -/
structure ValidatedOrder where
  order_id : OrderId
  shipping_address : Address
  billing_address : Address
  lines : List ValidatedOrderLine
deriving DecidableEq, Repr

/-- `ValidatedOrder::new`. -/
def ValidatedOrder.new (order_id : OrderId) (shipping_address : Address)
    (billing_address : Address) (lines : List ValidatedOrderLine) : ValidatedOrder :=
  ValidatedOrder.mk order_id shipping_address billing_address lines

/-- `implementation::to_customer_info`: each `?` is a match that returns the
error unchanged. -/
def to_customer_info (unvalidated_customer_info : UnvalidatedCustomerInfo) :
    Except String ValidatedCustomerInfo :=
  match String50.create unvalidated_customer_info.first_name with
  | Except.error e => Except.error e
  | Except.ok first_name =>
    match String50.create unvalidated_customer_info.last_name with
    | Except.error e => Except.error e
    | Except.ok last_name =>
      match EmailAddress.create unvalidated_customer_info.email_address with
      | Except.error e => Except.error e
      | Except.ok email_address =>
        Except.ok (ValidatedCustomerInfo.new first_name last_name email_address)

/-- `implementation::to_validated_order_line`: builds the `ProductCode`,
consults the injected existence check (propagating its error via `?`), then
wraps the line id and quantity. -/
def to_validated_order_line (check_product_exists : ProductCode → Except String Unit)
    (unvalidated_order_line : UnvalidatedOrderLine) : Except String ValidatedOrderLine :=
  let product_code := ProductCode.new unvalidated_order_line.product_code
  match check_product_exists product_code with
  | Except.error e => Except.error e
  | Except.ok _ =>
    let order_line_id := OrderLineId.new unvalidated_order_line.order_line_id
    let quantity := OrderQuantity.new unvalidated_order_line.quantity
    Except.ok (ValidatedOrderLine.new order_line_id product_code quantity)

/-- Rust `iter().map(f).collect::<Result<Vec<_>>>()`: a left-to-right
fail-fast traversal — the first `Err` is returned and no later element is
evaluated (the iterator is lazy and `collect` stops consuming on `Err`). -/
def collectResults {α β : Type} (f : α → Except String β) :
    List α → Except String (List β)
  | [] => Except.ok []
  | x :: xs =>
    match f x with
    | Except.error e => Except.error e
    | Except.ok y =>
      match collectResults f xs with
      | Except.error e => Except.error e
      | Except.ok ys => Except.ok (y :: ys)

/-- `implementation::validate_order`. -/
def validate_order (check_product_exists : ProductCode → Except String Unit)
    (unvalidated_order : UnvalidatedOrder) : Except String ValidatedOrder :=
  let order_id := OrderId.new unvalidated_order.order_id
  let shipping_address := Address.mk
  let billing_address := Address.mk
  match collectResults (to_validated_order_line check_product_exists)
      unvalidated_order.lines with
  | Except.error e => Except.error e
  | Except.ok lines =>
    Except.ok (ValidatedOrder.new order_id shipping_address billing_address lines)

/-- `implementation::place_order`: returns the workflow closure; on success
the validated order is discarded and the fixed
`PlaceOrderEvent::BillableOrderPlaced` event is emitted. -/
def place_order (check_product_exists : ProductCode → Except String Unit) :
    UnvalidatedOrder → Except String PlaceOrderEvent :=
  fun unvalidated_order =>
    match validate_order check_product_exists unvalidated_order with
    | Except.error e => Except.error e
    | Except.ok _validated_order =>
      Except.ok (PlaceOrderEvent.BillableOrderPlaced BillableOrderPlaced.mk)

/-- The sequence of product codes passed to `check_product_exists` during the
traversal of the lines by `validate_order`.  Justified by the operational
semantics of the source: `to_validated_order_line` invokes the port exactly
once, unconditionally, per line it is applied to, and the lazy
`map`/`collect::<Result<_>>` pipeline applies it to each line in input order,
stopping after the first line whose check fails. -/
def portTrace (check_product_exists : ProductCode → Except String Unit) :
    List UnvalidatedOrderLine → List ProductCode
  | [] => []
  | l :: ls =>
    match check_product_exists (ProductCode.new l.product_code) with
    | Except.error _ => [ProductCode.new l.product_code]
    | Except.ok _ =>
      ProductCode.new l.product_code :: portTrace check_product_exists ls

/-- The product codes of a list of unvalidated lines, in input order. -/
def codesOf (lines : List UnvalidatedOrderLine) : List ProductCode :=
  lines.map (fun l => ProductCode.new l.product_code)

/-- A port that reports every product present (in-memory test double). -/
def acceptAllPort : ProductCode → Except String Unit :=
  fun _ => Except.ok ()

/-- Scenario A port: reports `P1` present, everything else absent. -/
def scenarioAPort : ProductCode → Except String Unit :=
  fun code =>
    if code = ProductCode.new "P1" then Except.ok () else Except.error "not found!"

/-- Scenario A order: id `ORD-1`, one line `L1` / `P1` / quantity 5. -/
def scenarioAOrder : UnvalidatedOrder :=
  UnvalidatedOrder.mk "ORD-1" [UnvalidatedOrderLine.mk "L1" "P1" 5]

/-- The validated order Scenario A produces. -/
def scenarioAValidated : ValidatedOrder :=
  ValidatedOrder.new (OrderId.new "ORD-1") Address.mk Address.mk
    [ValidatedOrderLine.new (OrderLineId.new "L1") (ProductCode.new "P1")
      (OrderQuantity.new 5)]

/-! ### Helper lemmas (shared across claims) -/

/-- One-step unfolding of `to_validated_order_line` as a match on the port's
answer. -/
theorem to_validated_order_line_eq (check : ProductCode → Except String Unit)
    (l : UnvalidatedOrderLine) :
    to_validated_order_line check l =
      match check (ProductCode.new l.product_code) with
      | Except.error e => Except.error e
      | Except.ok _ =>
        Except.ok (ValidatedOrderLine.new (OrderLineId.new l.order_line_id)
          (ProductCode.new l.product_code) (OrderQuantity.new l.quantity)) := rfl

/-- A validated line produced by `to_validated_order_line` carries exactly the
wrapped raw fields of the input line. -/
theorem to_validated_order_line_ok_eq (check : ProductCode → Except String Unit)
    (l : UnvalidatedOrderLine) (y : ValidatedOrderLine)
    (h : to_validated_order_line check l = Except.ok y) :
    y = ValidatedOrderLine.new (OrderLineId.new l.order_line_id)
      (ProductCode.new l.product_code) (OrderQuantity.new l.quantity) := by
  rw [to_validated_order_line_eq] at h
  cases hc : check (ProductCode.new l.product_code) with
  | error e => rw [hc] at h; simp at h
  | ok u => rw [hc] at h; simp at h; exact h.symm

/-- `Except.isOk` on an error is `false`. -/
theorem isOk_error {α : Type} (e : String) :
    (Except.error e : Except String α).isOk = false := rfl

/-- `Except.isOk` on a success is `true`. -/
theorem isOk_ok {α : Type} (a : α) :
    (Except.ok a : Except String α).isOk = true := rfl

/-- `collectResults` succeeds exactly when `f` succeeds on every element. -/
theorem collectResults_isOk {α β : Type} (f : α → Except String β)
    (ls : List α) :
    (collectResults f ls).isOk = ls.all (fun x => (f x).isOk) := by
  induction ls with
  | nil => rfl
  | cons x xs ih =>
    unfold collectResults
    cases hf : f x with
    | error e => simp [hf, isOk_error]
    | ok y =>
      cases hr : collectResults f xs with
      | error e =>
        rw [hr] at ih
        simp [hf, isOk_error, isOk_ok, ← ih]
      | ok ys =>
        rw [hr] at ih
        simp [hf, isOk_error, isOk_ok, ← ih]

/-- Propositional form of `collectResults_isOk`. -/
theorem collectResults_isOk_iff {α β : Type} (f : α → Except String β)
    (ls : List α) :
    (collectResults f ls).isOk = true ↔ ∀ x ∈ ls, (f x).isOk = true := by
  rw [collectResults_isOk]
  simp [List.all_eq_true]

/-- When `f` succeeds on every element of `pre` and fails on `x` with `e`,
the fail-fast traversal of `pre ++ x :: post` returns `e`. -/
theorem collectResults_error_append {α β : Type} (f : α → Except String β)
    (pre : List α) (x : α) (post : List α) (e : String)
    (hpre : ∀ p ∈ pre, (f p).isOk = true)
    (hx : f x = Except.error e) :
    collectResults f (pre ++ x :: post) = Except.error e := by
  induction pre with
  | nil => simp [collectResults, hx]
  | cons p ps ih =>
    have hp : (f p).isOk = true := hpre p (by simp)
    cases hfp : f p with
    | error e2 => rw [hfp] at hp; simp [isOk_error] at hp
    | ok y =>
      have hrec := ih (fun q hq => hpre q (by simp [hq]))
      rw [List.cons_append]
      unfold collectResults
      simp [hfp, hrec]

/-- A successful `collectResults` over `to_validated_order_line` is exactly
the field-preserving map over the input lines. -/
theorem collectResults_ok_eq_map (check : ProductCode → Except String Unit)
    (ls : List UnvalidatedOrderLine) (ys : List ValidatedOrderLine)
    (h : collectResults (to_validated_order_line check) ls = Except.ok ys) :
    ys = ls.map (fun l => ValidatedOrderLine.new (OrderLineId.new l.order_line_id)
      (ProductCode.new l.product_code) (OrderQuantity.new l.quantity)) := by
  induction ls generalizing ys with
  | nil => simp [collectResults] at h; simp [h.symm]
  | cons l ls ih =>
    unfold collectResults at h
    cases hfl : to_validated_order_line check l with
    | error e => rw [hfl] at h; simp at h
    | ok y =>
      rw [hfl] at h
      cases hr : collectResults (to_validated_order_line check) ls with
      | error e => rw [hr] at h; simp at h
      | ok zs =>
        rw [hr] at h
        simp at h
        rw [← h, List.map_cons, ← ih zs hr,
          to_validated_order_line_ok_eq check l y hfl]

/-- `validate_order` propagates a failed line traversal unchanged. -/
theorem validate_order_error (check : ProductCode → Except String Unit)
    (o : UnvalidatedOrder) (e : String)
    (h : collectResults (to_validated_order_line check) o.lines = Except.error e) :
    validate_order check o = Except.error e := by
  unfold validate_order
  rw [h]

/-- `place_order` and `validate_order` succeed together. -/
theorem place_order_isOk_eq (check : ProductCode → Except String Unit)
    (o : UnvalidatedOrder) :
    (place_order check o).isOk = (validate_order check o).isOk := by
  unfold place_order
  cases h : validate_order check o <;> rfl

/-- `validate_order` and the line traversal succeed together. -/
theorem validate_order_isOk_eq (check : ProductCode → Except String Unit)
    (o : UnvalidatedOrder) :
    (validate_order check o).isOk
      = (collectResults (to_validated_order_line check) o.lines).isOk := by
  unfold validate_order
  cases h : collectResults (to_validated_order_line check) o.lines <;> rfl

/-- A line's validation succeeds exactly when the port accepts its code. -/
theorem to_validated_order_line_isOk_eq (check : ProductCode → Except String Unit)
    (l : UnvalidatedOrderLine) :
    (to_validated_order_line check l).isOk
      = (check (ProductCode.new l.product_code)).isOk := by
  rw [to_validated_order_line_eq]
  cases hc : check (ProductCode.new l.product_code) <;> rfl

/-- When the port accepts every line's code, the trace lists every code in
input order. -/
theorem portTrace_all_ok (check : ProductCode → Except String Unit)
    (ls : List UnvalidatedOrderLine)
    (h : ∀ l ∈ ls, check (ProductCode.new l.product_code) = Except.ok ()) :
    portTrace check ls = codesOf ls := by
  induction ls with
  | nil => simp [portTrace, codesOf]
  | cons l ls ih =>
    have hl := h l (by simp)
    unfold portTrace
    simp [hl, ih (fun q hq => h q (by simp [hq])), codesOf]

/-- When the port accepts every code in `pre` and rejects `l`'s code, the
trace is exactly the codes of `pre` followed by `l`'s code: the port is never
consulted for any line after the first rejected one. -/
theorem portTrace_error_append (check : ProductCode → Except String Unit)
    (pre : List UnvalidatedOrderLine) (l : UnvalidatedOrderLine)
    (post : List UnvalidatedOrderLine) (e : String)
    (hpre : ∀ p ∈ pre, check (ProductCode.new p.product_code) = Except.ok ())
    (hl : check (ProductCode.new l.product_code) = Except.error e) :
    portTrace check (pre ++ l :: post) = codesOf (pre ++ [l]) := by
  induction pre with
  | nil =>
    rw [List.nil_append]
    unfold portTrace
    simp [hl, codesOf]
  | cons p ps ih =>
    have hp := hpre p (by simp)
    rw [List.cons_append]
    unfold portTrace
    simp [hp, ih (fun q hq => hpre q (by simp [hq])), codesOf]

/-- `place_order` propagates a failed validation unchanged. -/
theorem place_order_error (check : ProductCode → Except String Unit)
    (o : UnvalidatedOrder) (e : String)
    (h : validate_order check o = Except.error e) :
    place_order check o = Except.error e := by
  unfold place_order
  rw [h]

/-- A successful `validate_order` is built from a successful line traversal. -/
theorem validate_order_ok_eq (check : ProductCode → Except String Unit)
    (o : UnvalidatedOrder) (v : ValidatedOrder)
    (h : validate_order check o = Except.ok v) :
    ∃ ys, collectResults (to_validated_order_line check) o.lines = Except.ok ys
      ∧ v = ValidatedOrder.new (OrderId.new o.order_id) Address.mk Address.mk ys := by
  unfold validate_order at h
  cases hc : collectResults (to_validated_order_line check) o.lines with
  | error e => rw [hc] at h; simp at h
  | ok ys =>
    rw [hc] at h
    simp at h
    exact ⟨ys, rfl, h.symm⟩

/-- Order used for the C6 witness: three lines over codes `P1`, `P2`, `P3`,
of which only `P1` is known to the Scenario A port. -/
def c6Order : UnvalidatedOrder :=
  UnvalidatedOrder.mk "ORD-2"
    [UnvalidatedOrderLine.mk "L1" "P1" 1, UnvalidatedOrderLine.mk "L2" "P2" 2,
      UnvalidatedOrderLine.mk "L3" "P3" 3]

/-! ### Claims -/

/-- C1: the spec requires `EmailAddress::create` to accept strings with a
single `@` between non-empty parts and to reject strings without `@`; the
source's condition is inverted (it errors exactly when `EMAIL_RE` matches),
so `"a@b"` is rejected while `"no-at-symbol"` is accepted — also through the
customer-info validation step of Scenario E. -/
theorem C1_email_check_inverted :
    EmailAddress.create "a@b" = Except.error "Must have @ separator"
  ∧ EmailAddress.create "no-at-symbol" = Except.ok (EmailAddress.mk "no-at-symbol")
  ∧ to_customer_info (UnvalidatedCustomerInfo.mk "Jane" "Doe" "no-at-symbol")
      = Except.ok (ValidatedCustomerInfo.mk (String50.mk "Jane") (String50.mk "Doe")
          (EmailAddress.mk "no-at-symbol")) :=
  ⟨by decide, by decide, by decide⟩

/-- C2: the spec requires an order with zero lines to fail with `EmptyOrder`;
the source has no such check — on an empty line list, `validate_order`
returns a validated order with zero lines and `place_order` returns the
`BillableOrderPlaced` event. -/
theorem C2_empty_order_not_rejected :
    validate_order acceptAllPort (UnvalidatedOrder.mk "ORD-1" [])
      = Except.ok (ValidatedOrder.new (OrderId.new "ORD-1") Address.mk Address.mk [])
  ∧ place_order acceptAllPort (UnvalidatedOrder.mk "ORD-1" [])
      = Except.ok (PlaceOrderEvent.BillableOrderPlaced BillableOrderPlaced.mk) :=
  ⟨by decide, by decide⟩

/-- C3: the spec requires `OrderQuantity` construction to fail with
`NonPositiveQuantity` for 0 and negative integers; the source's
`OrderQuantity::new` is infallible and wraps any value, and a whole order
with a zero-quantity line (Scenario D) is accepted by the pipeline. -/
theorem C3_nonpositive_quantity_not_rejected :
    OrderQuantity.new 0 = OrderQuantity.mk 0
  ∧ OrderQuantity.new (-3) = OrderQuantity.mk (-3)
  ∧ place_order acceptAllPort
      (UnvalidatedOrder.mk "ORD-1" [UnvalidatedOrderLine.mk "L1" "P1" 0])
      = Except.ok (PlaceOrderEvent.BillableOrderPlaced BillableOrderPlaced.mk) :=
  ⟨by decide, by decide, by decide⟩

/-- C4: the spec requires `OrderId::new` and `OrderLineId::new` to fail with
`Empty` on the empty string; the source's constructors are infallible — they
wrap any string, the empty string included, and the pipeline accepts an order
whose order id and line id are both empty. -/
theorem C4_empty_ids_not_rejected :
    OrderId.new "" = OrderId.mk ""
  ∧ OrderLineId.new "" = OrderLineId.mk ""
  ∧ (validate_order acceptAllPort
      (UnvalidatedOrder.mk "" [UnvalidatedOrderLine.mk "" "P1" 5])).isOk = true :=
  ⟨by decide, by decide, by decide⟩

/-- C5: `String50::create` succeeds, storing the input unchanged, on every
string of (byte) length at most 50, and fails with the field-too-long error
on every longer string. -/
theorem C5_string50_create_bounds (s : String) :
    (s.utf8ByteSize ≤ 50 → String50.create s = Except.ok (String50.mk s))
  ∧ (s.utf8ByteSize > 50 → String50.create s = Except.error "String to big") := by
  constructor
  · intro h
    unfold String50.create
    rw [if_neg (by omega)]
  · intro h
    unfold String50.create
    rw [if_pos h]

/-- Witness for C5 at `"hello"` (length 5) and a 51-character string. -/
theorem C5_string50_create_bounds_witness :
    String50.create "hello" = Except.ok (String50.mk "hello")
  ∧ String50.create "aaaaaaaaaaaaaaaaaaaaaaaaaaaaaaaaaaaaaaaaaaaaaaaaaaa"
      = Except.error "String to big" :=
  ⟨(C5_string50_create_bounds "hello").1 (by decide),
    (C5_string50_create_bounds
      "aaaaaaaaaaaaaaaaaaaaaaaaaaaaaaaaaaaaaaaaaaaaaaaaaaa").2 (by decide)⟩

/-- C6: the pipeline consults the port on each line's product code in input
order; when the port accepts every code before some line and rejects that
line's code, `place_order` fails with the port's error for that first
rejected line, and the port trace stops at that line — no later line is
processed or has the port invoked for it (and on an all-accepted list the
port is consulted on every code in input order). -/
theorem C6_port_fail_fast :
    (∀ (check : ProductCode → Except String Unit) (o : UnvalidatedOrder)
        (pre : List UnvalidatedOrderLine) (l : UnvalidatedOrderLine)
        (post : List UnvalidatedOrderLine) (e : String),
        o.lines = pre ++ l :: post →
        (∀ p ∈ pre, check (ProductCode.new p.product_code) = Except.ok ()) →
        check (ProductCode.new l.product_code) = Except.error e →
        place_order check o = Except.error e
          ∧ portTrace check o.lines = codesOf (pre ++ [l]))
  ∧ (∀ (check : ProductCode → Except String Unit)
        (ls : List UnvalidatedOrderLine),
        (∀ p ∈ ls, check (ProductCode.new p.product_code) = Except.ok ()) →
        portTrace check ls = codesOf ls) := by
  constructor
  · intro check o pre l post e hsplit hpre hl
    have herr : collectResults (to_validated_order_line check) o.lines
        = Except.error e := by
      rw [hsplit]
      apply collectResults_error_append
      · intro p hp
        rw [to_validated_order_line_isOk_eq, hpre p hp]
        rfl
      · rw [to_validated_order_line_eq, hl]
    refine ⟨place_order_error check o e (validate_order_error check o e herr), ?_⟩
    rw [hsplit]
    exact portTrace_error_append check pre l post e hpre hl
  · exact portTrace_all_ok

/-- Witness for C6: a three-line order against the Scenario A port (which
knows only `P1`) fails with the port's error for the second line, and the
port is consulted exactly on `P1` then `P2`, never on `P3`. -/
theorem C6_port_fail_fast_witness :
    place_order scenarioAPort c6Order = Except.error "not found!"
  ∧ portTrace scenarioAPort c6Order.lines
      = [ProductCode.new "P1", ProductCode.new "P2"] := by
  have h := C6_port_fail_fast.1 scenarioAPort c6Order
    [UnvalidatedOrderLine.mk "L1" "P1" 1] (UnvalidatedOrderLine.mk "L2" "P2" 2)
    [UnvalidatedOrderLine.mk "L3" "P3" 3] "not found!"
    (by decide) (by decide) (by decide)
  exact ⟨h.1, h.2.trans (by decide)⟩

/-- C7: the spec requires a failing existence check (as opposed to a
reported absence) to surface as a distinct `PortUnavailable` kind; the
source's port has a single error channel and `place_order` propagates the
port's error verbatim — whatever the port's failure means, the caller
receives exactly the port's error value, with no kind distinguishing
"product absent" from "port unavailable". -/
theorem C7_port_failure_conflated (e : String) :
    place_order (fun _ => Except.error e) scenarioAOrder = Except.error e := rfl

/-- C8: whenever validation succeeds, `place_order` returns the
`BillableOrderPlaced` variant of the workflow event. -/
theorem C8_success_emits_billable (check : ProductCode → Except String Unit)
    (o : UnvalidatedOrder) (v : ValidatedOrder)
    (h : validate_order check o = Except.ok v) :
    place_order check o
      = Except.ok (PlaceOrderEvent.BillableOrderPlaced BillableOrderPlaced.mk) := by
  unfold place_order
  rw [h]

/-- Witness for C8, Scenario A: order `ORD-1` with the single line
`L1`/`P1`/5 against a port that reports `P1` present validates to an order
with one line and yields the `BillableOrderPlaced` event. -/
theorem C8_success_emits_billable_witness :
    validate_order scenarioAPort scenarioAOrder = Except.ok scenarioAValidated
  ∧ scenarioAValidated.lines.length = 1
  ∧ place_order scenarioAPort scenarioAOrder
      = Except.ok (PlaceOrderEvent.BillableOrderPlaced BillableOrderPlaced.mk) :=
  ⟨by decide, by decide,
    C8_success_emits_billable scenarioAPort scenarioAOrder scenarioAValidated
      (by decide)⟩

/-- C9: with a pure port, `place_order` succeeds exactly when the port
accepts the product code of every line (equivalently, it fails exactly when
the port errors on some line's code); in particular with a port accepting
every code it succeeds on every order, whatever its id, line ids, quantities
or number of lines. -/
theorem C9_failure_iff_port_rejection :
    (∀ (check : ProductCode → Except String Unit) (o : UnvalidatedOrder),
        (place_order check o).isOk = true
          ↔ ∀ l ∈ o.lines,
              (check (ProductCode.new l.product_code)).isOk = true)
  ∧ (∀ o : UnvalidatedOrder, (place_order acceptAllPort o).isOk = true) := by
  have key : ∀ (check : ProductCode → Except String Unit) (o : UnvalidatedOrder),
      (place_order check o).isOk = true
        ↔ ∀ l ∈ o.lines, (check (ProductCode.new l.product_code)).isOk = true := by
    intro check o
    rw [place_order_isOk_eq, validate_order_isOk_eq, collectResults_isOk_iff]
    simp only [to_validated_order_line_isOk_eq]
  refine ⟨key, fun o => (key acceptAllPort o).mpr ?_⟩
  intro l hl
  rfl

/-- Witness for C9 at Scenario A's port and order. -/
theorem C9_failure_iff_port_rejection_witness :
    (place_order scenarioAPort scenarioAOrder).isOk = true :=
  (C9_failure_iff_port_rejection.1 scenarioAPort scenarioAOrder).mpr (by decide)

/-- C10: a successful validation preserves the input exactly — the validated
order id wraps the raw order id, and the validated lines are, in input
order, one per raw line, each wrapping that line's raw id, product code and
quantity. -/
theorem C10_validation_preserves_fields (check : ProductCode → Except String Unit)
    (o : UnvalidatedOrder) (v : ValidatedOrder)
    (h : validate_order check o = Except.ok v) :
    v.order_id = OrderId.new o.order_id
  ∧ v.lines = o.lines.map (fun l =>
      ValidatedOrderLine.new (OrderLineId.new l.order_line_id)
        (ProductCode.new l.product_code) (OrderQuantity.new l.quantity)) := by
  obtain ⟨ys, hc, hv⟩ := validate_order_ok_eq check o v h
  subst hv
  exact ⟨rfl, collectResults_ok_eq_map check o.lines ys hc⟩

/-- Witness for C10 at Scenario A. -/
theorem C10_validation_preserves_fields_witness :
    scenarioAValidated.order_id = OrderId.new scenarioAOrder.order_id
  ∧ scenarioAValidated.lines = scenarioAOrder.lines.map (fun l =>
      ValidatedOrderLine.new (OrderLineId.new l.order_line_id)
        (ProductCode.new l.product_code) (OrderQuantity.new l.quantity)) :=
  C10_validation_preserves_fields scenarioAPort scenarioAOrder scenarioAValidated
    (by decide)

end OrderTaking
